import Mathlib

/-!
# Verification of the GDAX order-book trader core

A shallow embedding, in Lean 4, of the core of the `gdax_order_book_trader`
repository: the bounded-retry/pacing call wrapper (`utils.connection_retry`),
the shared balance lookup (`strategy.Strategy.get_currency_balance`), and the
order-book-imbalance strategy (`strategies/order_book_imbalance.py`:
`OBIStrategy._track_order`, `_get_trade_signal`, `_get_market_price`,
`_update_pending_order`, `_place_order`).

Conventions used throughout:

* Python exact decimals (`decimal.Decimal`) and the rational arithmetic the
  strategy performs on book levels are embedded as `ℚ`.
* Dynamic-typing faults that the source can actually raise are made explicit
  with the `PyErr` type and `Except PyErr` results: mixing `Decimal` and
  `float` in `+` raises `TypeError`; reading a local variable that was never
  assigned raises `UnboundLocalError`; `x / 0` raises `ZeroDivisionError`;
  referencing an unimported module name raises `NameError`; calling a method
  on `None` raises `AttributeError`.  The `PyNum` type tags a numeric value as
  `Decimal` or `float` so these mixed-mode faults can be stated faithfully.
* Wall-clock time is abstracted: `_update_pending_order`'s comparison
  `elapsed_time > timedelta(seconds=20)` enters the embedding as the boolean
  parameter `canBeCancelled`.
* Network calls are request/response: a call either raises a transient error
  (`ConnectionError`/`JSONDecodeError`, embedded as `NetErr`) or returns a
  payload.
-/

/-- Python runtime faults that the embedded code paths can raise. -/
inductive PyErr
  | typeError
  | unboundLocal
  | zeroDivision
  | nameError
  | attributeError
  deriving DecidableEq

/-- Decidable equality for `Except`, so outcome records below can derive
`DecidableEq` and closed evaluations can be settled by `decide`. -/
instance {ε α : Type} [DecidableEq ε] [DecidableEq α] :
    DecidableEq (Except ε α)
  | .ok a, .ok b =>
      if h : a = b then .isTrue (by rw [h])
      else .isFalse (fun hc => h (Except.ok.inj hc))
  | .ok _, .error _ => .isFalse (fun hc => Except.noConfusion hc)
  | .error _, .ok _ => .isFalse (fun hc => Except.noConfusion hc)
  | .error e, .error e2 =>
      if h : e = e2 then .isTrue (by rw [h])
      else .isFalse (fun hc => h (Except.error.inj hc))

/-- Transient network-level failures: `requests.exceptions.ConnectionError`
and `json.decoder.JSONDecodeError`, the two classes that `connection_retry`
and the strategy's `try/except` blocks catch.  The payload distinguishes
individual failure objects so that "the *last* failure is re-raised" is a
statable property. -/
inductive NetErr
  | connectionError (tag : Nat)
  | jsonDecodeError (tag : Nat)
  deriving DecidableEq

/-- A Python numeric value tagged with its runtime type: `decimal.Decimal`
or `float`.  Both are modelled with exact rational values; the tag exists
because `Decimal + float` raises `TypeError` while comparisons between the
two are permitted. -/
inductive PyNum
  | dec (q : ℚ)
  | flt (q : ℚ)
  deriving DecidableEq

/-- The numeric value carried by a `PyNum`. -/
def PyNum.val : PyNum → ℚ
  | .dec q => q
  | .flt q => q

/-- Python `+` on tagged numbers: `Decimal + Decimal` and `float + float`
succeed; mixing `Decimal` with `float` raises `TypeError` (CPython's
`decimal.Decimal` refuses binary arithmetic with `float`). -/
def addNum : PyNum → PyNum → Except PyErr PyNum
  | .dec a, .dec b => .ok (.dec (a + b))
  | .flt a, .flt b => .ok (.flt (a + b))
  | _, _ => .error .typeError

/-- Python `!=` between tagged numbers: unlike `+`, comparison between
`Decimal` and `float` is defined (numerically exact) since Python 3.2. -/
def numNe (a b : PyNum) : Bool := a.val ≠ b.val

/-! ## `utils.connection_retry` (src/utils.py, lines 11-52)

The decorator body is a `while` loop over the mutable locals
`data`, `retry`, `connect_success`, `connect_error`, followed by
`if retry == max_retries and connect_error: raise connect_error` and
`return data`.  The wrapped operation is embedded as a map from the attempt
index (0-based) to that attempt's outcome; `time.sleep(rate_limit)` is
counted rather than performed. -/

/-- The loop state of `connection_retry.wrapper`: the locals of the Python
function plus instrumentation counters for calls and sleeps. -/
structure RetryState where
  data : Option Nat
  retry : Nat
  connectSuccess : Bool
  connectError : Option NetErr
  calls : Nat
  sleeps : Nat
  deriving DecidableEq

/-- One-for-one translation of the `while not connect_success and retry <
max_retries` loop.  Each iteration attempts the call, records a success or
the failure, then increments `retry` and sleeps.  `fuel` bounds the
recursion; `maxRetries` units are always enough because `retry` increases
by one per iteration. -/
def retryGo (f : Nat → Except NetErr Nat) (maxRetries : Nat) :
    Nat → RetryState → RetryState
  | 0, s => s
  | fuel + 1, s =>
      if !s.connectSuccess && s.retry < maxRetries then
        let s' :=
          match f s.retry with
          | .ok v =>
              { s with data := some v, connectSuccess := true,
                       calls := s.calls + 1 }
          | .error e =>
              { s with connectError := some e, calls := s.calls + 1 }
        retryGo f maxRetries fuel
          { s' with retry := s'.retry + 1, sleeps := s'.sleeps + 1 }
      else s

/-- The observable outcome of one call through the wrapper: the value
returned (`.ok`) or the exception raised (`.error`), with the number of
attempts made and sleeps performed. -/
structure RetryOutcome where
  result : Except NetErr (Option Nat)
  calls : Nat
  sleeps : Nat
  deriving DecidableEq

/-- `connection_retry(max_retries, rate_limit)` applied to an operation `f`:
run the loop from the initial locals, then perform the source's final test
`if retry == max_retries and connect_error: raise connect_error` and
otherwise `return data`. -/
def connectionRetry (maxRetries : Nat) (f : Nat → Except NetErr Nat) :
    RetryOutcome :=
  let s := retryGo f maxRetries maxRetries
    { data := none, retry := 0, connectSuccess := false,
      connectError := none, calls := 0, sleeps := 0 }
  match s.connectError with
  | some e =>
      if s.retry = maxRetries then ⟨.error e, s.calls, s.sleeps⟩
      else ⟨.ok s.data, s.calls, s.sleeps⟩
  | none => ⟨.ok s.data, s.calls, s.sleeps⟩

/-! ## The imbalance computation (`OBIStrategy._get_trade_signal`, first half)

Book sides are lists of `(price, size)` levels with exact numeric entries
(the spec's BookSnapshot invariant: every price and size numerically
parseable).  `best_bid` is `Decimal(bid_orders['price'].max())` and
`best_ask` is `Decimal(ask_orders['price'].min())`; on an empty side the
reference value is never consumed by the (empty) weighting loop, so the
embedding supplies `0` as an arbitrary placeholder there. -/

/-- Best bid: the maximum price on the bid side (placeholder `0` when the
side is empty, in which case no weight computation ever reads it). -/
def bestBid (bids : List (ℚ × ℚ)) : ℚ :=
  ((bids.map Prod.fst).max?).getD 0

/-- Best ask: the minimum price on the ask side (placeholder `0` when the
side is empty, in which case no weight computation ever reads it). -/
def bestAsk (asks : List (ℚ × ℚ)) : ℚ :=
  ((asks.map Prod.fst).min?).getD 0

/-- The proximity weight of one book level:
`size / (delta * (|price - ref| / ref) + beta)` with `delta = 2`, `beta = 1`
(loop bodies over `iterrows()` in `_get_trade_signal`). -/
def levelWeight (ref : ℚ) (level : ℚ × ℚ) : ℚ :=
  level.2 / (2 * (|level.1 - ref| / ref) + 1)

/-- One side's accumulated weighted volume (`bid_qty` / `ask_qty`). -/
def sideQty (ref : ℚ) (levels : List (ℚ × ℚ)) : ℚ :=
  (levels.map (levelWeight ref)).sum

/-- The imbalance line
`(bid_qty - ask_qty) / (bid_qty + ask_qty)`: Python division raises
`ZeroDivisionError` exactly when the denominator is zero, so the embedding
returns `Except`. -/
def computeImbalance (bids asks : List (ℚ × ℚ)) : Except PyErr ℚ :=
  let bq := sideQty (bestBid bids) bids
  let aq := sideQty (bestAsk asks) asks
  if bq + aq = 0 then .error .zeroDivision
  else .ok ((bq - aq) / (bq + aq))

/-! ## Trade signals and the threshold decision
(`OBIStrategy._get_trade_signal`, second half)

After appending the new imbalance to `self.order_book_imbalance`, the source
runs, whenever `len(self.order_book_imbalance) > OBIStrategy.PERIOD`:

```
last_period_obi = self.order_book_imbalance[-OBIStrategy.PERIOD:]
threshold = pd.DataFrame(last_period_obi).std()[0]
```

The module `strategies/order_book_imbalance.py` never imports pandas (there
is no `import pandas as pd` among its imports), so evaluating the name `pd`
raises `NameError` the first time this branch is reached.  The embedding
keeps both views: `tradeSignalDecision` is the source as it executes (the
branch faults), and `tradeSignalModel` is the computation the source spells
out, with `pd.DataFrame(xs).std()[0]` modelled by its documented meaning,
the sample standard deviation of `xs` (normalisation by `n - 1`). -/

/-- Buy/sell signals (`OBIStrategy.BUY_SIGNAL` / `OBIStrategy.SELL_SIGNAL`);
`Option Signal` stands for the source's `signal` local, `None` meaning no
signal. -/
inductive Signal
  | buy
  | sell
  deriving DecidableEq

/-- `OBIStrategy.PERIOD`. -/
def PERIOD : Nat := 30

/-- The threshold branch as the source executes it, applied to the history
*after* the append (so its last entry is the imbalance just computed): the
branch guard is `len(history) > PERIOD`, and its first statement evaluates
the unimported name `pd`, raising `NameError`.  Below the guard no signal is
assigned and `signal = None` is returned. -/
def tradeSignalDecision (history : List ℚ) : Except PyErr (Option Signal) :=
  if history.length > PERIOD then .error .nameError
  else .ok none

/-- Sample variance with the `n - 1` normalisation that
`pandas.DataFrame.std` uses by default (`ddof = 1`). -/
def sampleVariance (xs : List ℚ) : ℚ :=
  let n : ℚ := xs.length
  let m : ℚ := xs.sum / n
  (xs.map (fun x => (x - m) ^ 2)).sum / (n - 1)

/-- The threshold decision the source spells out, with the faulting library
call `pd.DataFrame(last_period_obi).std()[0]` modelled by the sample
standard deviation `σ` of the last `PERIOD` entries.  The source compares
`order_book_imbalance > 2σ` (buy) and `< -2σ` (sell); since `σ = √v ≥ 0`
with `v` the sample variance, those comparisons are expressed in exact
arithmetic as `obi > 0 ∧ obi² > 4v` and `obi < 0 ∧ obi² > 4v`
(see `gt_two_sqrt_iff` below for the equivalence). -/
def tradeSignalModel (history : List ℚ) : Option Signal :=
  if history.length > PERIOD then
    let lastPeriod := history.drop (history.length - PERIOD)
    let v := sampleVariance lastPeriod
    let obi := history.getLastD 0
    if 0 < obi ∧ 4 * v < obi ^ 2 then some .buy
    else if obi < 0 ∧ 4 * v < obi ^ 2 then some .sell
    else none
  else none

/-! ## Order payloads and `OBIStrategy._track_order`
(src/strategies/order_book_imbalance.py, lines 51-105)

An exchange order payload is a JSON object; the fields the core reads are
embedded as optional fields (`none` = key absent, matching the source's
`try ... except KeyError` accesses).  `hasMessage` embeds the membership
test `'message' in order`; `price` is `none` when the `price` entry is
missing or not parseable as a `Decimal` (the source catches `KeyError`,
`TypeError` and `InvalidOperation` together); `createdAtPresent` records
whether the `created_at` entry is available. -/

/-- An order payload as the strategy reads it. -/
structure OrderResp where
  id : Option String
  status : Option String
  doneReason : Option String
  settled : Option Bool
  hasMessage : Bool
  price : Option ℚ
  createdAtPresent : Bool
  deriving DecidableEq

/-- `OBIStrategy.set_up`: `self.order = None`. -/
def setUpOrder : Option OrderResp := none

/-- The clearing condition of `_track_order`:
`order_error or cancelled or rejected or (is_done and is_settled)`, with each
flag computed by a `try/except KeyError` field read. -/
def trackClears (o : OrderResp) : Bool :=
  let cancelled := o.doneReason == some "cancelled"
  let rejected := o.status == some "rejected"
  let isDone := o.status == some "done"
  let isSettled := o.settled == some true
  o.hasMessage || cancelled || rejected || (isDone && isSettled)

/-- `OBIStrategy._track_order`, as a function of the currently tracked order
and the poll outcome (`trader.get_order`, which either raises a transient
`NetErr` or returns a payload).  Returns the new value of `self.order` and
the method's boolean result:

* no tracked order, or a tracked payload without an `id` entry: return
  `False`, order unchanged (the initial `try` catches `KeyError`/`TypeError`);
* transient poll failure: logged, return `False`, order unchanged;
* polled payload satisfying `trackClears`: clear the order, return `False`;
* any other payload: store the fresh payload, return `True`. -/
def trackOrder (tracked : Option OrderResp) (poll : Except NetErr OrderResp) :
    Option OrderResp × Bool :=
  match tracked with
  | none => (none, false)
  | some cur =>
      match cur.id with
      | none => (some cur, false)
      | some _ =>
          match poll with
          | .error _ => (some cur, false)
          | .ok o => if trackClears o then (none, false) else (some o, true)

/-! ## `OBIStrategy._get_market_price`
(src/strategies/order_book_imbalance.py, lines 160-181) -/

/-- `_get_market_price(signal)`: start from `Decimal(self.order['price'])`
(or `None` when the order or its price is absent/unparseable), then
overwrite with `Decimal(bid_orders['price'].max())` on a buy signal or
`Decimal(ask_orders['price'].min())` on a sell signal.  All successful
outcomes are `Decimal`s. -/
def getMarketPrice (tracked : Option OrderResp) (bids asks : List (ℚ × ℚ))
    (signal : Option Signal) : Option ℚ :=
  let fromOrder :=
    match tracked with
    | none => none
    | some o => o.price
  match signal with
  | some .buy => some (bestBid bids)
  | some .sell => some (bestAsk asks)
  | none => fromOrder

/-! ## `OBIStrategy._update_pending_order`
(src/strategies/order_book_imbalance.py, lines 203-244)

The source parses `price` and `created_at` from the tracked order inside a
`try` that returns `False` on failure, computes the market price and
`can_be_cancelled = elapsed_time > timedelta(seconds=20)` (abstracted here
as the boolean parameter `canBeCancelled`), then assigns `price_changed`
under

```
if signal == OBIStrategy.BUY_SIGNAL:
    price_changed = price != (market_price + OBIStrategy.LIMIT_PADDING)
elif signal == OBIStrategy.BUY_SIGNAL:
    price_changed = price != (market_price - OBIStrategy.LIMIT_PADDING)
```

— note that **both** branches test `BUY_SIGNAL`; the `elif` can never run,
so `price_changed` is only ever assigned on the buy branch.  Finally

```
if not signal or (can_be_cancelled and price_changed):
    self._cancel_order()
```

`OBIStrategy.LIMIT_PADDING` is the float literal `0.01`, while `price` and
`market_price` are `Decimal`s, so the buy-branch assignment evaluates
`Decimal + float`, a `TypeError` in CPython.  On the sell branch nothing is
assigned, and reading `price_changed` in the final condition (reached when
`can_be_cancelled` is true, since `and` short-circuits) raises
`UnboundLocalError`. -/

/-- `OBIStrategy.LIMIT_PADDING`: the float literal `0.01`. -/
def LIMIT_PADDING : PyNum := .flt (1 / 100)

/-- Outcome of `_update_pending_order`: whether `self._cancel_order()` was
invoked, and the method's result — `.ok b` for `return b`, `.error e` for an
uncaught fault. -/
structure RepriceOutcome where
  cancelCalled : Bool
  result : Except PyErr Bool
  deriving DecidableEq

/-- `OBIStrategy._update_pending_order(signal)`.  Parameters: the tracked
order, the book sides (for `_get_market_price`), the signal, and the
already-computed `can_be_cancelled` boolean.  The `price_changed` local is
embedded as `Option Bool` (`none` = never assigned); reading it unassigned
is the source's `UnboundLocalError`. -/
def updatePendingOrder (tracked : Option OrderResp)
    (bids asks : List (ℚ × ℚ)) (signal : Option Signal)
    (canBeCancelled : Bool) : RepriceOutcome :=
  match tracked with
  | none => ⟨false, .ok false⟩
  | some o =>
      match o.price, o.createdAtPresent with
      | some price, true =>
          let marketPrice := getMarketPrice (some o) bids asks signal
          -- the `price_changed` assignment (both guards test the buy signal)
          let priceChanged : Except PyErr (Option Bool) :=
            if signal = some .buy then
              match marketPrice with
              | some mp =>
                  match addNum (.dec mp) LIMIT_PADDING with
                  | .ok s => .ok (some (numNe (.dec price) s))
                  | .error e => .error e
              | none => .error .typeError
            else .ok none
          match priceChanged with
          | .error e => ⟨false, .error e⟩
          | .ok pc =>
              -- `if not signal or (can_be_cancelled and price_changed)`
              if signal = none then ⟨true, .ok true⟩
              else if canBeCancelled then
                match pc with
                | none => ⟨false, .error .unboundLocal⟩
                | some b =>
                    if b then ⟨true, .ok true⟩ else ⟨false, .ok true⟩
              else ⟨false, .ok true⟩
      | _, _ => ⟨false, .ok false⟩

/-! ## `Strategy.get_currency_balance` (src/strategy.py, lines 71-88)

Accounts are JSON objects; the fields the lookup reads are embedded as
optional fields, `balance = none` meaning the entry is missing or not
parseable as a `Decimal` (the source catches `KeyError`, `TypeError` and
`InvalidOperation` together and `continue`s). -/

/-- An account entry as the balance lookup reads it. -/
structure Account where
  currency : Option String
  balance : Option ℚ
  deriving DecidableEq

/-- `Strategy.get_currency_balance(currency)`: linear scan, first match
returned as an exact decimal, malformed entries skipped, `None` when no
entry matches. -/
def getCurrencyBalance (accounts : List Account) (currency : String) :
    Option ℚ :=
  match accounts with
  | [] => none
  | a :: rest =>
      match a.currency, a.balance with
      | some c, some b =>
          if c = currency then some b
          else getCurrencyBalance rest currency
      | some c, none =>
          -- currency matches but `Decimal(balance)` raises: entry skipped
          if c = currency then getCurrencyBalance rest currency
          else getCurrencyBalance rest currency
      | none, _ => getCurrencyBalance rest currency

/-! ## `OBIStrategy._place_order`
(src/strategies/order_book_imbalance.py, lines 278-330)

The buy branch computes `size = self.get_currency_balance(currency) /
market_price`; when the lookup returned `None` this is `None / Decimal`, a
`TypeError` raised before `trader.buy` is ever called.  The sell branch
passes `size = self.get_currency_balance(currency)` straight to
`trader.sell`, where a `None` size faults inside the call
(`size.quantize(...)` on `None`, an `AttributeError` that neither the
retry wrapper nor the `except (ConnectionError, JSONDecodeError)` around
the call catches).  The `Decimal.quantize` rounding of the size string to
eight decimal places is not modelled; no claim depends on it. -/

/-- A placement call handed to the trader: which endpoint, and the price
and size arguments (`size = none` embeds passing Python `None`). -/
inductive PlaceCall
  | buy (price size : ℚ)
  | sell (price : ℚ) (size : Option ℚ)
  deriving DecidableEq

/-- Outcome of `_place_order`: the trader call made (if any), the new value
of `self.order`, and the method's result (`.ok b` for `return b`, `.error e`
for an uncaught fault). -/
structure PlaceOutcome where
  call : Option PlaceCall
  newOrder : Option OrderResp
  result : Except PyErr Bool
  deriving DecidableEq

/-- `OBIStrategy._place_order(signal)`.  Parameters: tracked order, book
sides, the quote- and base-currency balance lookup results, and the
request/response behaviour of `trader.buy` / `trader.sell` (transient
`NetErr` or a payload).  The stored order is replaced only when the call
succeeded and the payload carries no `'message'` key. -/
def placeOrder (tracked : Option OrderResp) (bids asks : List (ℚ × ℚ))
    (quoteBal baseBal : Option ℚ)
    (buyResp sellResp : Except NetErr OrderResp)
    (signal : Option Signal) : PlaceOutcome :=
  match tracked with
  | some _ => ⟨none, tracked, .ok false⟩
  | none =>
      let marketPrice := getMarketPrice none bids asks signal
      match signal with
      | some .buy =>
          match marketPrice with
          | none => ⟨none, none, .error .typeError⟩
          | some mp =>
              match quoteBal with
              | none => ⟨none, none, .error .typeError⟩
              | some bal =>
                  let size := bal / mp
                  match buyResp with
                  | .error _ => ⟨some (.buy mp size), none, .ok false⟩
                  | .ok o =>
                      ⟨some (.buy mp size),
                       if o.hasMessage then none else some o, .ok true⟩
      | some .sell =>
          match marketPrice with
          | none => ⟨none, none, .error .attributeError⟩
          | some mp =>
              match baseBal with
              | none => ⟨some (.sell mp none), none, .error .attributeError⟩
              | some bal =>
                  match sellResp with
                  | .error _ => ⟨some (.sell mp (some bal)), none, .ok false⟩
                  | .ok o =>
                      ⟨some (.sell mp (some bal)),
                       if o.hasMessage then none else some o, .ok true⟩
      | none => ⟨none, none, .ok false⟩

/-! ## Concrete inputs used by the closed theorems below -/

/-- A transient failure object (a `ConnectionError` instance). -/
def errA : NetErr := .connectionError 1

/-- An operation that fails transiently on its first attempt and succeeds
(returning `7`) on every later attempt. -/
def failThenOk : Nat → Except NetErr Nat
  | 0 => .error errA
  | _ => .ok 7

/-- An operation that fails transiently on every attempt, with a distinct
failure object per attempt (so "the last failure" is observable). -/
def alwaysFail : Nat → Except NetErr Nat :=
  fun n => .error (.connectionError n)

/-- A well-formed open-order payload: has an `id`, status `open`, no
`done_reason`, not settled, no `message` key, price `100`, `created_at`
present. -/
def sampleOrder : OrderResp :=
  ⟨some "a", some "open", none, none, false, some 100, true⟩

/-- The most recent `PERIOD = 30` imbalance entries of the C7 scenario,
ending with the newly appended imbalance `1/4`.  Writing each entry as
`1/20 + d/20`, the offsets `d` are `(-4, 5, -5, 4, -4, 1, -1, 0 × 22, 4)`,
which sum to `0` and have squares summing to `116`, so the sample variance
is `(116/400)/29 = 1/100` and the sample standard deviation is `1/10`. -/
def lastPeriodObi : List ℚ :=
  [-3/20, 6/20, -4/20, 5/20, -3/20, 2/20, 0] ++
    List.replicate 22 (1/20) ++ [5/20]

/-- The C7 scenario history after the append: 31 entries, whose most recent
30 are `lastPeriodObi` (sample standard deviation `1/10`) and whose last
entry is the new imbalance `1/4`. -/
def scenarioHist : List ℚ := 0 :: lastPeriodObi

/-! ## C1 -/

/-- C1 (code_bug evidence): for the retry/pacer, the claim holds for a
success on attempt `k = 2` of `N = 5` (invoked twice, slept twice, result
returned) and for `N = 2` attempts that all fail (invoked twice, slept
twice, the *last* failure re-raised); but when the operation succeeds
exactly on the final attempt (`k = N = 2`, first attempt failing
transiently), the wrapper still invokes it twice and sleeps twice yet
raises the stale attempt-1 failure instead of returning the result: the
final `if retry == max_retries and connect_error` test cannot tell "all
attempts failed" from "the last attempt succeeded". -/
theorem connection_retry_stale_failure_on_final_attempt :
    connectionRetry 5 failThenOk = ⟨.ok (some 7), 2, 2⟩ ∧
    connectionRetry 2 alwaysFail = ⟨.error (.connectionError 1), 2, 2⟩ ∧
    connectionRetry 2 failThenOk = ⟨.error errA, 2, 2⟩ := by
  decide

/-! ## C2 -/

/-- C2 (code_bug evidence): per-tick repricing of a tracked open order
(price `100`, `created_at` present) on books with best bid `100` and best
ask `101`.  A neutral signal cancels; a SELL signal with the 20-second hold
not yet elapsed leaves the order untouched; but a SELL signal with the hold
elapsed raises `UnboundLocalError` (the `price_changed` local is only ever
assigned under the duplicated `if signal == BUY_SIGNAL` test), and a BUY
signal raises `TypeError` in the assignment itself (`Decimal` market price
plus the `float` `LIMIT_PADDING`) — contradicting both "cancels exactly
when neutral or (canCancel and priceChanged)" and "never raising an error
on a SELL signal". -/
theorem update_pending_order_sell_branch_faults :
    updatePendingOrder (some sampleOrder) [(100, 1)] [(101, 1)]
        (some .sell) true = ⟨false, .error .unboundLocal⟩ ∧
    updatePendingOrder (some sampleOrder) [(100, 1)] [(101, 1)]
        (some .sell) false = ⟨false, .ok true⟩ ∧
    updatePendingOrder (some sampleOrder) [(100, 1)] [(101, 1)]
        (some .buy) true = ⟨false, .error .typeError⟩ ∧
    updatePendingOrder (some sampleOrder) [(100, 1)] [(101, 1)]
        none true = ⟨true, .ok true⟩ := by
  decide

/-! ## C3 -/

/-- C3 (code_bug evidence): placement from the no-order state with best bid
`100`, best ask `101` and available balances.  The BUY placement hands
`trader.buy` the price `100` — the raw best bid, not the claimed padded
`100.01` — and the SELL placement hands `trader.sell` the price `101`, not
the claimed `100.99`: `_place_order` passes `market_price` through without
applying `LIMIT_PADDING`. -/
theorem place_order_price_unpadded :
    (placeOrder none [(100, 1)] [(101, 1)] (some 10) (some 1)
        (.ok sampleOrder) (.ok sampleOrder) (some .buy)).call =
      some (.buy 100 (1 / 10)) ∧
    (placeOrder none [(100, 1)] [(101, 1)] (some 10) (some 1)
        (.ok sampleOrder) (.ok sampleOrder) (some .sell)).call =
      some (.sell 101 (some 1)) ∧
    (100 : ℚ) ≠ 100 + 1 / 100 ∧ (101 : ℚ) ≠ 101 - 1 / 100 := by
  refine ⟨?_, ?_, by norm_num, by norm_num⟩
  · simp [placeOrder, getMarketPrice, bestBid, bestAsk]
    norm_num
  · simp [placeOrder, getMarketPrice, bestBid, bestAsk]

/-! ## C4 -/

/-- C4 (code_bug evidence): on a snapshot whose sides are both empty, and
on one whose levels all have size zero, the imbalance line evaluates
`0 / 0` and raises `ZeroDivisionError` — the computation has no
zero-volume guard, so it does not "emit no signal without raising". -/
theorem compute_imbalance_zero_volume_faults :
    computeImbalance [] [] = .error .zeroDivision ∧
    computeImbalance [(100, 0)] [(101, 0)] = .error .zeroDivision := by
  constructor <;> simp [computeImbalance, sideQty, levelWeight]

/-! ## C5 -/

/-- C5 (code_bug evidence): with no account entry for the quote currency,
`get_currency_balance` returns the explicit not-found result (`None`), and
the BUY sizing line `self.get_currency_balance(currency) / market_price`
then raises `TypeError` (`None / Decimal`), which no handler in
`_place_order` or `next` catches: the tick's placement does not abort
cleanly, the exception escapes the iteration hook. -/
theorem place_order_missing_balance_fault_escapes :
    getCurrencyBalance [] "USD" = none ∧
    placeOrder none [(100, 1)] [(101, 1)] (getCurrencyBalance [] "USD")
        (some 1) (.ok sampleOrder) (.ok sampleOrder) (some .buy) =
      ⟨none, none, .error .typeError⟩ := by
  decide

/-! ## C6 -/

/-- A level's proximity weight is nonnegative whenever the reference price
is positive and the level's size is nonnegative. -/
theorem levelWeight_nonneg (ref : ℚ) (l : ℚ × ℚ) (hr : 0 < ref)
    (hs : 0 ≤ l.2) : 0 ≤ levelWeight ref l := by
  unfold levelWeight
  refine div_nonneg hs ?_
  positivity

/-- A side's weighted volume is nonnegative whenever its reference price is
positive and its sizes are nonnegative. -/
theorem sideQty_nonneg (ref : ℚ) (L : List (ℚ × ℚ)) (hr : 0 < ref)
    (hs : ∀ l ∈ L, 0 ≤ l.2) : 0 ≤ sideQty ref L := by
  unfold sideQty
  apply List.sum_nonneg
  intro x hx
  simp only [List.mem_map] at hx
  obtain ⟨l, hl, rfl⟩ := hx
  exact levelWeight_nonneg ref l hr (hs l hl)

/-- The arithmetic core of the imbalance bound: for nonnegative volumes
with a nonzero sum, the normalized difference lies in `[-1, 1]`, strictly
when both volumes are positive. -/
theorem imbalance_ratio_bounds (bq aq : ℚ) (hb0 : 0 ≤ bq) (ha0 : 0 ≤ aq)
    (hne : bq + aq ≠ 0) :
    -1 ≤ (bq - aq) / (bq + aq) ∧ (bq - aq) / (bq + aq) ≤ 1 ∧
      (0 < bq → 0 < aq →
        -1 < (bq - aq) / (bq + aq) ∧ (bq - aq) / (bq + aq) < 1) := by
  have hs : 0 < bq + aq := lt_of_le_of_ne (add_nonneg hb0 ha0) (Ne.symm hne)
  refine ⟨?_, ?_, fun hb ha => ⟨?_, ?_⟩⟩
  · rw [le_div_iff₀ hs]; linarith
  · rw [div_le_one hs]; linarith
  · rw [lt_div_iff₀ hs]; linarith
  · rw [div_lt_one hs]; linarith

/-- C6 counterexample: a snapshot with one bid level `(100, 1)` and an
empty ask side has combined weighted volume `1 ≠ 0`, yet the computed
imbalance is exactly `1`, which does *not* lie strictly between `-1` and
`1` — the claim's strict bound fails whenever one side's weighted volume is
zero. -/
theorem imbalance_strict_bound_fails_one_sided :
    sideQty (bestBid [(100, 1)]) [(100, 1)] + sideQty (bestAsk []) [] ≠ 0 ∧
    computeImbalance [(100, 1)] [] = .ok 1 ∧
    ¬(-1 < (1 : ℚ) ∧ (1 : ℚ) < 1) := by
  refine ⟨?_, ?_, by norm_num⟩ <;>
    norm_num [computeImbalance, sideQty, levelWeight, bestBid, bestAsk]

/-- C6 amended: for a snapshot with nonnegative sizes, positive reference
prices on nonempty sides, and nonzero combined weighted volume, the
computation succeeds and the imbalance lies in the closed interval
`[-1, 1]`; it lies strictly in `(-1, 1)` whenever *both* sides' weighted
volumes are positive. -/
theorem imbalance_bounded (bids asks : List (ℚ × ℚ))
    (hbs : ∀ l ∈ bids, 0 ≤ l.2) (has2 : ∀ l ∈ asks, 0 ≤ l.2)
    (hbp : bids ≠ [] → 0 < bestBid bids) (hap : asks ≠ [] → 0 < bestAsk asks)
    (hne : sideQty (bestBid bids) bids + sideQty (bestAsk asks) asks ≠ 0) :
    ∃ v, computeImbalance bids asks = .ok v ∧ -1 ≤ v ∧ v ≤ 1 ∧
      (0 < sideQty (bestBid bids) bids →
        0 < sideQty (bestAsk asks) asks → -1 < v ∧ v < 1) := by
  have hb0 : 0 ≤ sideQty (bestBid bids) bids := by
    rcases eq_or_ne bids [] with h | h
    · rw [h]; simp [sideQty]
    · exact sideQty_nonneg _ _ (hbp h) hbs
  have ha0 : 0 ≤ sideQty (bestAsk asks) asks := by
    rcases eq_or_ne asks [] with h | h
    · rw [h]; simp [sideQty]
    · exact sideQty_nonneg _ _ (hap h) has2
  obtain ⟨h1, h2, h3⟩ := imbalance_ratio_bounds _ _ hb0 ha0 hne
  refine ⟨_, ?_, h1, h2, h3⟩
  show (if sideQty (bestBid bids) bids + sideQty (bestAsk asks) asks = 0
        then Except.error PyErr.zeroDivision
        else Except.ok
          ((sideQty (bestBid bids) bids - sideQty (bestAsk asks) asks) /
            (sideQty (bestBid bids) bids + sideQty (bestAsk asks) asks))) = _
  rw [if_neg hne]

/-- Witness for `imbalance_bounded` at the concrete snapshot with bids
`[(100, 1)]` and asks `[(101, 2)]` (weighted volumes `1` and `2`, imbalance
`-1/3`). -/
theorem imbalance_bounded_witness :
    ∃ v, computeImbalance [(100, 1)] [(101, 2)] = .ok v ∧ -1 ≤ v ∧ v ≤ 1 ∧
      (0 < sideQty (bestBid [(100, 1)]) [(100, 1)] →
        0 < sideQty (bestAsk [(101, 2)]) [(101, 2)] → -1 < v ∧ v < 1) :=
  imbalance_bounded [(100, 1)] [(101, 2)]
    (by norm_num) (by norm_num)
    (fun _ => by norm_num [bestBid]) (fun _ => by norm_num [bestAsk])
    (by norm_num [sideQty, levelWeight, bestBid, bestAsk])

/-! ## C7 -/

/-- The comparison against twice a standard deviation, rewritten in exact
arithmetic: for `v ≥ 0`, `x > 2·√v` iff `x > 0` and `x² > 4·v`.  This is
the equivalence `tradeSignalModel` relies on. -/
theorem gt_two_sqrt_iff (x v : ℝ) (hv : 0 ≤ v) :
    2 * Real.sqrt v < x ↔ 0 < x ∧ 4 * v < x ^ 2 := by
  constructor
  · intro h
    have hs0 : 0 ≤ Real.sqrt v := Real.sqrt_nonneg v
    have hx : 0 < x := lt_of_le_of_lt (by linarith) h
    have hsq : Real.sqrt v ^ 2 = v := Real.sq_sqrt hv
    exact ⟨hx, by nlinarith [hsq, hs0]⟩
  · rintro ⟨hx, hlt⟩
    have : Real.sqrt v < x / 2 := by
      rw [show v = Real.sqrt v ^ 2 from (Real.sq_sqrt hv).symm] at hlt
      nlinarith [Real.sqrt_nonneg v]
    linarith

/-- C7 (code_bug evidence): on the scenario history of 31 entries whose
most recent 30 have sample standard deviation `1/10` and whose newly
appended imbalance is `1/4`, the source's decision step raises `NameError`
(the branch's first statement reads the never-imported name `pd`), while
the computation the source spells out — threshold `2σ = 1/5`, imbalance
`1/4 > 1/5` — yields the BUY signal the claim describes. -/
theorem trade_signal_scenario :
    tradeSignalDecision scenarioHist = .error .nameError ∧
    scenarioHist.length = 31 ∧
    tradeSignalModel scenarioHist = some .buy ∧
    scenarioHist.getLastD 0 = 1 / 4 ∧
    2 * Real.sqrt
        ((sampleVariance (scenarioHist.drop (scenarioHist.length - PERIOD)) :
          ℚ) : ℝ) = 1 / 5 ∧
    (1 / 5 : ℝ) < 1 / 4 := by
  have hd : scenarioHist.drop (scenarioHist.length - PERIOD) =
      lastPeriodObi := rfl
  have hv : sampleVariance lastPeriodObi = 1 / 100 := by
    norm_num [sampleVariance, lastPeriodObi]
  refine ⟨by decide, by decide, ?_, ?_, ?_, by norm_num⟩
  · unfold tradeSignalModel
    rw [if_pos (by decide : scenarioHist.length > PERIOD)]
    show (if 0 < scenarioHist.getLastD 0 ∧
          4 * sampleVariance (scenarioHist.drop (scenarioHist.length - PERIOD)) <
            scenarioHist.getLastD 0 ^ 2 then some Signal.buy
        else if scenarioHist.getLastD 0 < 0 ∧
          4 * sampleVariance (scenarioHist.drop (scenarioHist.length - PERIOD)) <
            scenarioHist.getLastD 0 ^ 2 then some Signal.sell
        else none) = some Signal.buy
    rw [hd, show scenarioHist.getLastD 0 = 5 / 20 from rfl]
    rw [if_pos (by rw [hv]; norm_num)]
  · rw [show scenarioHist.getLastD 0 = 5 / 20 from rfl]
    norm_num
  · rw [hd, hv]
    push_cast
    rw [show ((1 : ℝ) / 100) = (1 / 10) ^ 2 by norm_num,
      Real.sqrt_sq (by norm_num : (0 : ℝ) ≤ 1 / 10)]
    norm_num

/-! ## C8 -/

/-- C8: polling an open tracked order (one whose payload has an `id`) with
a successful response clears the tracked order exactly when the response
carries the `'message'` error marker, or `done_reason = "cancelled"`, or
`status = "rejected"`, or (`status = "done"` and `settled = true`); any
other successful response keeps the state open and replaces the stored
order with the freshly polled payload. -/
theorem track_order_clear_characterisation (i : String)
    (st dr : Option String) (se : Option Bool) (hm : Bool) (pr : Option ℚ)
    (ca : Bool) (poll : OrderResp) :
    trackOrder (some ⟨some i, st, dr, se, hm, pr, ca⟩) (Except.ok poll) =
      if poll.hasMessage = true ∨ poll.doneReason = some "cancelled" ∨
          poll.status = some "rejected" ∨
          (poll.status = some "done" ∧ poll.settled = some true)
      then (none, false) else (some poll, true) := by
  have h : trackClears poll = true ↔
      (poll.hasMessage = true ∨ poll.doneReason = some "cancelled" ∨
        poll.status = some "rejected" ∨
        (poll.status = some "done" ∧ poll.settled = some true)) := by
    simp only [trackClears, Bool.or_eq_true, Bool.and_eq_true, beq_iff_eq]
    tauto
  show (if trackClears poll = true then ((none : Option OrderResp), false)
        else (some poll, true)) = _
  by_cases hc : trackClears poll = true
  · rw [if_pos hc, if_pos (h.mp hc)]
  · rw [if_neg hc, if_neg (fun hp => hc (h.mpr hp))]

/-! ## C9 -/

/-- C9 counterexample: with no tracked order, a directional BUY signal and
a quote-currency balance lookup that returned the not-found result, the
placement step invokes *neither* the buy nor the sell placement (the
sizing division faults first) — refuting "exactly one of the buy or sell
placements is invoked if the signal is directional" as a statement over
every strategy state. -/
theorem place_order_buy_without_balance_places_nothing :
    (placeOrder none [(100, 1)] [(101, 1)] none (some 5)
        (.ok sampleOrder) (.ok sampleOrder) (some .buy)).call = none := by
  decide

/-- C9 amended: placing while an order is tracked changes nothing and
reports failure; with no tracked order, no placement call is made without a
signal; a BUY signal invokes exactly the buy placement provided the
quote-balance lookup succeeded (the refuted case being a failed lookup,
which faults before any call); a SELL signal always invokes exactly the
sell placement (handing it the raw balance-lookup result).  The call field
is a single `Option`, so at most one placement ever happens per tick and at
most one order is tracked. -/
theorem place_order_call_discipline (tracked : Option OrderResp)
    (bids asks : List (ℚ × ℚ)) (qb bb : Option ℚ)
    (bR sR : Except NetErr OrderResp) (signal : Option Signal) :
    (∀ o, tracked = some o →
      placeOrder tracked bids asks qb bb bR sR signal =
        ⟨none, tracked, .ok false⟩) ∧
    (tracked = none → signal = none →
      placeOrder tracked bids asks qb bb bR sR signal =
        ⟨none, none, .ok false⟩) ∧
    (tracked = none → signal = some .buy → ∀ b, qb = some b →
      (placeOrder tracked bids asks qb bb bR sR signal).call =
        some (.buy (bestBid bids) (b / bestBid bids))) ∧
    (tracked = none → signal = some .sell →
      (placeOrder tracked bids asks qb bb bR sR signal).call =
        some (.sell (bestAsk asks) bb)) := by
  refine ⟨?_, ?_, ?_, ?_⟩
  · rintro o rfl; rfl
  · rintro rfl rfl; rfl
  · rintro rfl rfl b rfl
    rcases bR with e | o
    · rfl
    · rfl
  · rintro rfl rfl
    rcases bb with _ | b
    · rfl
    · rcases sR with e | o
      · rfl
      · rfl

/-- Witness for `place_order_call_discipline`: placing with an order
already tracked is a failing no-op that leaves the tracked order in
place. -/
theorem place_order_call_discipline_witness :
    placeOrder (some sampleOrder) [] [] none none (.ok sampleOrder)
        (.ok sampleOrder) none = ⟨none, some sampleOrder, .ok false⟩ :=
  (place_order_call_discipline (some sampleOrder) [] [] none none
      (.ok sampleOrder) (.ok sampleOrder) none).1 sampleOrder rfl

/-! ## C10 -/

/-- The implicit invariant: the tracked order is either absent or a payload
that does not contain the `'message'` error marker. -/
def invNoErrMsg (t : Option OrderResp) : Prop :=
  ∀ o, t = some o → o.hasMessage = false

/-- C10: the no-error-marker invariant holds after `set_up` and is
preserved by every `_track_order` poll (the keep-branch stores the fresh
payload only when `trackClears` — whose first disjunct is the `'message'`
test — is false) and by every `_place_order` outcome (a response is stored
only under `if 'message' not in order`). -/
theorem tracked_order_never_error_payload :
    invNoErrMsg setUpOrder ∧
    (∀ t poll, invNoErrMsg t → invNoErrMsg (trackOrder t poll).1) ∧
    (∀ tracked bids asks qb bb bR sR signal, invNoErrMsg tracked →
      invNoErrMsg
        (placeOrder tracked bids asks qb bb bR sR signal).newOrder) := by
  refine ⟨?_, ?_, ?_⟩
  · intro o h; exact Option.noConfusion h
  · intro t poll hinv
    rcases t with _ | cur
    · intro o h; exact Option.noConfusion h
    · rcases hid : cur.id with _ | i
      · simp only [trackOrder, hid]
        exact hinv
      · rcases poll with e | o2
        · simp only [trackOrder, hid]
          exact hinv
        · simp only [trackOrder, hid]
          by_cases hc : trackClears o2 = true
          · rw [if_pos hc]
            intro o h; exact Option.noConfusion h
          · rw [if_neg hc]
            intro o h
            cases Option.some.inj h
            have hfalse : trackClears o2 = false := by
              cases h2 : trackClears o2
              · rfl
              · exact absurd h2 hc
            unfold trackClears at hfalse
            simp only [Bool.or_eq_false_iff] at hfalse
            exact hfalse.1.1.1
  · intro tracked bids asks qb bb bR sR signal hinv
    rcases tracked with _ | cur
    · rcases signal with _ | sig
      · intro o h; exact Option.noConfusion h
      · rcases sig
        · rcases qb with _ | b
          · intro o h; exact Option.noConfusion h
          · rcases bR with e | o2
            · intro o h; exact Option.noConfusion h
            · show invNoErrMsg (if o2.hasMessage then none else some o2)
              by_cases hm : o2.hasMessage = true
              · rw [if_pos hm]
                intro o h; exact Option.noConfusion h
              · rw [if_neg hm]
                intro o h
                cases Option.some.inj h
                cases h2 : o2.hasMessage
                · rfl
                · exact absurd h2 hm
        · rcases bb with _ | b
          · intro o h; exact Option.noConfusion h
          · rcases sR with e | o2
            · intro o h; exact Option.noConfusion h
            · show invNoErrMsg (if o2.hasMessage then none else some o2)
              by_cases hm : o2.hasMessage = true
              · rw [if_pos hm]
                intro o h; exact Option.noConfusion h
              · rw [if_neg hm]
                intro o h
                cases Option.some.inj h
                cases h2 : o2.hasMessage
                · rfl
                · exact absurd h2 hm
    · exact hinv

/-- Witness for `tracked_order_never_error_payload`: the invariant holds
concretely for the no-order state after one poll attempt. -/
theorem tracked_order_never_error_payload_witness :
    invNoErrMsg (trackOrder none (Except.ok sampleOrder)).1 :=
  tracked_order_never_error_payload.2.1 none (Except.ok sampleOrder)
    (fun o h => Option.noConfusion h)
